import Mathlib

/-!
A verification development for `pylib/troubleshoot/openrazer.py` of the
Polychromatic repository: the OpenRazer troubleshooter pipeline.

The Python module is shallowly embedded: strings are lists of characters,
the ambient system (platform name, files, subprocess outputs, the HTTP
response) is a record of explicit inputs, and every Python operation that
can raise is modelled in the `Except` monad with an explicit error type.
Python `float` values arising from `float(minor + "." + patch)` are modelled
as exact decimal numbers (numerator and scale); for the short decimal
literals built from version components, conversion to IEEE doubles is
strictly monotone, so the order used by the code coincides with the exact
decimal order modelled here.
-/

namespace OpenrazerTS

/-- Python strings, as lists of characters. -/
abbrev Str := List Char

/-- The characters of a string literal. -/
def S (s : String) : Str := s.data

/-- Python whitespace test on the ASCII whitespace characters
(space, tab, newline, carriage return, vertical tab, form feed). -/
def isSpaceC (c : Char) : Bool :=
  c.toNat == 32 || c.toNat == 9 || c.toNat == 10 ||
  c.toNat == 13 || c.toNat == 11 || c.toNat == 12

/-- ASCII decimal digit test. -/
def isDigitC (c : Char) : Bool := 48 ≤ c.toNat && c.toNat ≤ 57

/-- Python `str.upper` on one ASCII character. -/
def upperC (c : Char) : Char :=
  if 97 ≤ c.toNat && c.toNat ≤ 122 then Char.ofNat (c.toNat - 32) else c

/-- Python `str.upper` (ASCII). -/
def strUpper (s : Str) : Str := s.map upperC

/-- Python `str.split(sep)` for a one-character separator: no collapsing of
adjacent separators, and the empty string splits to `[""]`. -/
def splitOnChar (c : Char) : Str → List Str
  | [] => [[]]
  | x :: xs =>
    if x == c then [] :: splitOnChar c xs
    else
      match splitOnChar c xs with
      | [] => [[x]]
      | y :: ys => (x :: y) :: ys

/-- Python `str.strip()` (whitespace from both ends). -/
def stripStr (s : Str) : Str :=
  ((s.dropWhile isSpaceC).reverse.dropWhile isSpaceC).reverse

/-- Python `s.find(sub) != -1`: substring occurrence. -/
def containsSub (s sub : Str) : Bool :=
  match s with
  | [] => sub == []
  | _ :: rest => sub.isPrefixOf s || containsSub rest sub

/-- Python `str.replace(pat, rep)`, all non-overlapping occurrences left to
right; the fuel argument bounds the recursion by the length of the string
(each step consumes at least one character). A replace with an empty
pattern never occurs in the embedded code and is modelled as the identity. -/
def replaceAux (pat rep : Str) : Nat → Str → Str
  | 0, s => s
  | _ + 1, [] => []
  | fuel + 1, c :: s =>
    if pat != [] && pat.isPrefixOf (c :: s) then
      rep ++ replaceAux pat rep fuel (List.drop pat.length (c :: s))
    else c :: replaceAux pat rep fuel s

/-- Python `s.replace(pat, rep)`. -/
def replaceStr (s pat rep : Str) : Str := replaceAux pat rep s.length s

/-- `"\n".join`-style joining used to model the content of a file read as
lines: its lines without terminators, joined by newlines. -/
def joinLines : List Str → Str
  | [] => []
  | [l] => l
  | l :: rest => l ++ '\n' :: joinLines rest

/-- Joining tokens by single spaces. -/
def joinSp : List Str → Str
  | [] => []
  | [t] => t
  | t :: rest => t ++ ' ' :: joinSp rest

/-- `os.path.join` for the absolute and relative paths used by the module. -/
def pathJoin (a b : Str) : Str :=
  if b.headD ' ' == '/' then b
  else if a == [] then b
  else if a.getLastD ' ' == '/' then a ++ b
  else a ++ '/' :: b

/-- The ASCII digit character of a value below ten. -/
def digitChar (n : Nat) : Char := Char.ofNat (48 + n)

/-- Decimal digits of a natural number, most significant first; the fuel
argument bounds the recursion (any fuel above the number is enough). -/
def natDigitsAux : Nat → Nat → Str
  | 0, _ => []
  | fuel + 1, n =>
    if n < 10 then [digitChar n]
    else natDigitsAux fuel (n / 10) ++ [digitChar (n % 10)]

/-- Python `str(n)` for a natural number. -/
def natToStr (n : Nat) : Str := natDigitsAux (n + 1) n

/-- Python `str(i)` for an integer. -/
def intToStr (i : Int) : Str :=
  if i < 0 then '-' :: natToStr i.natAbs else natToStr i.natAbs

/-- The lowercase hexadecimal digit character of a value below sixteen. -/
def hexDigitChar (n : Nat) : Char :=
  if n < 10 then digitChar n else Char.ofNat (87 + n)

/-- Lowercase hexadecimal digits of a natural number, most significant
first, with fuel as in `natDigitsAux`. -/
def natHexAux : Nat → Nat → Str
  | 0, _ => []
  | fuel + 1, n =>
    if n < 16 then [hexDigitChar n]
    else natHexAux fuel (n / 16) ++ [hexDigitChar (n % 16)]

/-- Python `str(hex(n))[2:]` for a non-negative `n`: the lowercase hex
digits without the `0x` marker. -/
def pyHexStr (n : Nat) : Str := natHexAux (n + 1) n

/-- Python `str.rjust(width, fill)`. -/
def rjust (s : Str) (width : Nat) (fill : Char) : Str :=
  List.replicate (width - s.length) fill ++ s

/-- The value of a string of decimal digits (0 for the empty string). -/
def parseDigitsVal (s : Str) : Nat :=
  s.foldl (fun acc c => 10 * acc + (c.toNat - 48)) 0

/-- All characters are decimal digits. -/
def allDigits (s : Str) : Bool := s.all isDigitC

/-- Python `int(s)` on a string: surrounding whitespace is stripped, an
optional sign is accepted, and the rest must be a non-empty run of decimal
digits; anything else raises `ValueError`, modelled as `none`.
(Underscore digit grouping, accepted by Python, never occurs in the
embedded inputs and is not modelled.) -/
def pyInt (s : Str) : Option Int :=
  let t := stripStr s
  if t.headD ' ' == '-' then
    if allDigits t.tail && t.tail != [] then some (-(parseDigitsVal t.tail : Int)) else none
  else if t.headD ' ' == '+' then
    if allDigits t.tail && t.tail != [] then some (parseDigitsVal t.tail : Int) else none
  else if allDigits t && t != [] then some (parseDigitsVal t : Int) else none

/-- An exact decimal number `num / 10 ^ scale`, standing in for the Python
float built by `float(...)` from a decimal literal. -/
structure Dec where
  num : Int
  scale : Nat
deriving DecidableEq, Repr

/-- Strict order on exact decimals by cross-multiplication. -/
def decLtB (a b : Dec) : Bool :=
  a.num * (10 : Int) ^ b.scale < b.num * (10 : Int) ^ a.scale

/-- Python `float(s)` restricted to plain decimal literals: surrounding
whitespace stripped, an optional sign, then digits with at most one point
and at least one digit overall. Exponent, infinity and NaN forms never
occur in the embedded inputs and are modelled as `ValueError` (`none`). -/
def pyFloat (s : Str) : Option Dec :=
  let t := stripStr s
  let sgn : Int := if t.headD ' ' == '-' then -1 else 1
  let body : Str := if t.headD ' ' == '-' || t.headD ' ' == '+' then t.tail else t
  match splitOnChar '.' body with
  | [i] =>
    if allDigits i && i != [] then some ⟨sgn * (parseDigitsVal i : Int), 0⟩ else none
  | [i, f] =>
    if allDigits i && allDigits f && (i ++ f) != [] then
      some ⟨sgn * (parseDigitsVal (i ++ f) : Int), f.length⟩
    else none
  | _ => none

/-! ## The embedded pipeline

`troubleshoot(_)` reads the ambient system through `os`, `shutil`,
`subprocess`, `glob`, `requests` and the optional `openrazer.client`
library. All of those inputs are gathered in an `Env` record; a subprocess
whose binary is absent is `none` (Python raises `FileNotFoundError` from
`Popen`), and the HTTP fetch is `none` when `requests.get` raises. -/

/-- The faults the embedded code can raise. -/
inductive PyErr where
  | valueError
  | indexError
  | fileNotFoundError
  | dbusError
deriving DecidableEq, Repr

/-- One entry of the report: the dict literal
`{"test_name": ..., "suggestions": [...], "passed": ...}` appended to
`results`. `passed` is `True`/`False`/`None` in Python, hence `Option Bool`
here (`none` is the indeterminate outcome). -/
structure Check where
  test_name : Str
  suggestions : List Str
  passed : Option Bool
deriving DecidableEq, Repr

/-- Every input the pipeline reads from the ambient system, plus the
translation function passed as the `_` parameter of `troubleshoot`. -/
structure Env where
  tr : Str → Str
  sysname : Str
  uname_release : Str
  uname_machine : Str
  xdg_runtime_dir : Option Str
  uid : Nat
  which_openrazer_daemon : Bool
  path_exists : Str → Bool
  read_lines : Str → List Str
  read_bytes : Str → List Nat
  python_lib_present : Bool
  rclient_version : Str
  modprobe : Option Int
  lsmod : Option Str
  efi_glob : List Str
  od_available : Bool
  groups_out : Option Str
  home : Str
  lsusb_out : Option Str
  devices : Option (List (Option (Nat × Nat)))
  response : Option (Nat × Str)

/-- Modelled from the spec: `common.get_exception_as_string` lives in
`pylib/common.py`, which is not among the repository files provided; the
spec says the caller receives a single fatal diagnostic string, so the
function is modelled as an injective rendering of the caught fault. -/
def get_exception_as_string : PyErr → Str
  | .valueError => S "ValueError"
  | .indexError => S "IndexError"
  | .fileNotFoundError => S "FileNotFoundError"
  | .dbusError => S "DBusException"

/-- The three shapes the caller can receive: `None` (not applicable), the
`results` list, or the exception rendered as a string. -/
inductive Outcome where
  | notApplicable
  | report (results : List Check)
  | fatal (message : Str)
deriving DecidableEq, Repr

/-- The path of `openrazer-daemon.pid`: under `XDG_RUNTIME_DIR` when that
environment variable is set (the `KeyError` of a missing variable is caught
inside the pipeline), else under `/run/user/<uid>`. -/
def daemonPidFile (env : Env) : Str :=
  match env.xdg_runtime_dir with
  | some x => pathJoin x (S "openrazer-daemon.pid")
  | none => pathJoin (pathJoin (S "/run/user/") (natToStr env.uid)) (S "openrazer-daemon.pid")

/-- First line of a file read as lines (Python `f.readline()` up to its
terminator, which `int` strips anyway). An empty file yields the empty
string. -/
def firstLine : List Str → Str
  | [] => []
  | l :: _ => l

/-- Whether the daemon is running: if the pid file exists its first line is
converted with `int` — a malformed line raises `ValueError` — and the flag
is the existence of `/proc/<pid>`. -/
def daemonRunningFlag (env : Env) : Except PyErr Bool :=
  if env.path_exists (daemonPidFile env) then
    match pyInt (firstLine (env.read_lines (daemonPidFile env))) with
    | none => .error .valueError
    | some pid => .ok (env.path_exists (S "/proc/" ++ intToStr pid))
  else .ok false

/-- The `Daemon is installed` entry (`shutil.which("openrazer-daemon")`). -/
def daemonInstalledCheck (env : Env) : Check :=
  { test_name := env.tr (S "Daemon is installed"),
    suggestions := [env.tr (S "Install the \x27openrazer-meta\x27 package for your distribution.")],
    passed := some env.which_openrazer_daemon }

/-- The `Daemon is running` entry. -/
def daemonRunningCheck (env : Env) : Except PyErr Check :=
  match daemonRunningFlag env with
  | .error e => .error e
  | .ok flag =>
    .ok { test_name := env.tr (S "Daemon is running"),
          suggestions := [
            env.tr (S "Start the daemon from the terminal. Run this command and look for errors:"),
            S "$ openrazer-daemon -Fv"],
          passed := some flag }

/-- The `Python library is installed` entry. -/
def pythonLibCheck (env : Env) : Check :=
  { test_name := env.tr (S "Python library is installed"),
    suggestions := [
      env.tr (S "Install the \x27python3-openrazer\x27 package for your distribution."),
      env.tr (S "Check the PYTHONPATH environment variable is correct.")],
    passed := some env.python_lib_present }

/-- `/var/lib/dkms/openrazer-driver/<version>`. -/
def dkmsSrcPath (env : Env) : Str :=
  S "/var/lib/dkms/openrazer-driver/" ++ env.rclient_version

/-- `/var/lib/dkms/openrazer-driver/kernel-<release>-<machine>`. -/
def dkmsBuildPath (env : Env) : Str :=
  S "/var/lib/dkms/openrazer-driver/kernel-" ++ env.uname_release ++ S "-" ++ env.uname_machine

/-- The two DKMS entries, present only when the Python library imported. -/
def dkmsChecks (env : Env) : List Check :=
  if env.python_lib_present then
    [{ test_name := env.tr (S "DKMS sources are installed"),
       suggestions := [env.tr (S "Install the \x27openrazer-driver-dkms\x27 package for your distribution.")],
       passed := some (env.path_exists (dkmsSrcPath env)) },
     { test_name := env.tr (S "DKMS module has been built for this kernel version"),
       suggestions := [
         env.tr (S "Ensure you have the correct Linux kernel headers package installed for your distribution."),
         env.tr (S "Your distro\x27s package system might not have rebuilt the DKMS module (this can happen with kernel or OpenRazer updates). Try running:"),
         replaceStr (S "$ sudo dkms install -m openrazer-driver/x.x.x") (S "x.x.x") env.rclient_version],
       passed := some (env.path_exists (dkmsBuildPath env)) }]
  else []

/-- The `DKMS module can be probed` entry: `modprobe -n razerkbd` exit code
zero; a missing `modprobe` binary raises from `Popen`. -/
def modprobeCheck (env : Env) : Except PyErr Check :=
  match env.modprobe with
  | none => .error .fileNotFoundError
  | some code =>
    .ok { test_name := env.tr (S "DKMS module can be probed"),
          suggestions := [env.tr (S "For full error details, run:"), S "$ sudo modprobe razerkbd"],
          passed := some (code == 0) }

/-- The `DKMS module is currently loaded` entry: `lsmod` output contains
`razer`. -/
def lsmodCheck (env : Env) : Except PyErr Check :=
  match env.lsmod with
  | none => .error .fileNotFoundError
  | some out =>
    .ok { test_name := env.tr (S "DKMS module is currently loaded"),
          suggestions := [env.tr (S "For full error details, run:"), S "$ sudo modprobe razerkbd"],
          passed := some (containsSub out (S "razer")) }

/-- The shared secure-boot suggestion line. -/
def sbReason (tr : Str → Str) : Str :=
  tr (S "Secure Boot prevents the driver from loading, as OpenRazer\x27s kernel modules built by DKMS are usually unsigned.")

/-- The output of `od --address-radix=n --format=u1 <file>` on a short
file: the decimal values of its bytes separated by spaces, then a newline.
(The real tool pads columns with extra spaces and wraps long files; the
code keeps only the last space-separated token, on which the two renderings
agree.) -/
def odRender (bytes : List Nat) : Str := joinSp (bytes.map natToStr) ++ ['\n']

/-- The indeterminate secure-boot entry, appended when no `SecureBoot*`
variable file was globbed. -/
def sbIndetCheck (tr : Str → Str) : Check :=
  { test_name := tr (S "Check Secure Boot (EFI) status"),
    suggestions := [
      tr (S "Unable to automatically check. If it\x27s enabled, turn it off in the system\x27s EFI settings or sign the modules yourself."),
      sbReason tr],
    passed := none }

/-- The determinate secure-boot entry: `pass` is whether the final byte of
the status variable is zero (secure boot disabled). -/
def sbStatusCheck (tr : Str → Str) (pass : Bool) : Check :=
  { test_name := tr (S "Check Secure Boot (EFI) status"),
    suggestions := [
      tr (S "Secure boot is enabled. Turn it off in the system\x27s EFI settings or sign the modules yourself."),
      sbReason tr],
    passed := some pass }

/-- The secure-boot entries: nothing unless `/sys/firmware/efi` exists;
an indeterminate entry when no `SecureBoot*` variable file was globbed;
otherwise `od` dumps the variable file, the last space-separated token is
taken and converted with `int`, and the entry passes exactly when that
final byte is zero. -/
def securebootChecks (env : Env) : Except PyErr (List Check) :=
  if env.path_exists (S "/sys/firmware/efi") then
    match env.efi_glob with
    | [] => .ok [sbIndetCheck env.tr]
    | p :: _ =>
      if env.od_available then
        match pyInt (stripStr ((splitOnChar ' ' (odRender (env.read_bytes p))).getLastD [])) with
        | none => .error .valueError
        | some v => .ok [sbStatusCheck env.tr (v == 0)]
      else .error .fileNotFoundError
  else .ok []

/-- The `plugdev` group entry: `groups` output contains `plugdev`. -/
def groupsCheck (env : Env) : Except PyErr Check :=
  match env.groups_out with
  | none => .error .fileNotFoundError
  | some g =>
    .ok { test_name := env.tr (S "User account has been added to the \x27plugdev\x27 group"),
          suggestions := [
            env.tr (S "Run this command, log out, then log back in to the computer:"),
            S "$ sudo gpasswd -a $USER plugdev",
            env.tr (S "If you\x27ve recently installed, you may need to restart the computer.")],
          passed := some (containsSub g (S "plugdev")) }

/-- `~/.local/share/openrazer/logs/razer.log`. -/
def logPath (env : Env) : Str :=
  pathJoin env.home (S ".local/share/openrazer/logs/razer.log")

/-- The log-scan entry, present only when the log file exists: passes when
the joined log does not contain `Could not access /sys/`. -/
def logChecks (env : Env) : List Check :=
  if env.path_exists (logPath env) then
    [{ test_name := env.tr (S "Check OpenRazer log for plugdev permission errors"),
       suggestions := [
         env.tr (S "Restarting (or replugging) usually fixes the problem."),
         env.tr (S "To reset this error, clear the log:") ++ ' ' :: logPath env],
       passed := some (!containsSub (joinLines (env.read_lines (logPath env))) (S "Could not access /sys/")) }]
  else []

/-- The per-line `lsusb` scan: a non-empty line is split on spaces and its
sixth token split on `:` into the vendor/product pair (uppercased); a line
with fewer than six tokens, or whose sixth token has no `:`, raises
`IndexError` — the surrounding `except AttributeError` does not catch it.
Empty lines are skipped. -/
def parseLsusbLines : List Str → Except PyErr (List (Str × Str))
  | [] => .ok []
  | usb :: rest =>
    if usb.length > 0 then
      match (splitOnChar ' ' usb).get? 5 with
      | none => .error .indexError
      | some tok =>
        match splitOnChar ':' tok with
        | v0 :: v1 :: _ =>
          match parseLsusbLines rest with
          | .error e => .error e
          | .ok ids => .ok ((strUpper v0, strUpper v1) :: ids)
        | _ => .error .indexError
    else parseLsusbLines rest

/-- The `lsusb` output split on newlines and scanned line by line. -/
def parseLsusbOutput (out : Str) : Except PyErr (List (Str × Str)) :=
  parseLsusbLines (splitOnChar '\n' out)

/-- `str(hex(n))[2:].upper().rjust(4, "0")` for a device vendor/product
id. -/
def deviceIdStr (n : Nat) : Str := rjust (strUpper (pyHexStr n)) 4 '0'

/-- The registered ids from the daemon device list: a device whose
vendor/product attributes raise is skipped (`except ... continue`). -/
def regIds (devs : List (Option (Nat × Nat))) : List (Str × Str) :=
  devs.filterMap (fun d => d.map (fun vp => (deviceIdStr vp.1, deviceIdStr vp.2)))

/-- The reconciliation loop of `_get_filtered_lsusb_list`: keep a scanned
id exactly when its vendor is `1532` and it is not registered. -/
def filterUnregistered : List (Str × Str) → List (Str × Str) → List (Str × Str)
  | [], _ => []
  | usb :: rest, reg =>
    if usb.1 != S "1532" then filterUnregistered rest reg
    else if reg.contains usb then filterUnregistered rest reg
    else usb :: filterUnregistered rest reg

/-- The `Check for unsupported hardware` entry: passes exactly when the
unregistered list is empty. -/
def unsupportedHardwareCheck (tr : Str → Str) (dkms_version : Str)
    (unreg : List (Str × Str)) : Check :=
  { test_name := tr (S "Check for unsupported hardware"),
    suggestions := [
      replaceStr (tr (S "Ensure the latest version is installed (your version is x.x.x).")) (S "x.x.x") dkms_version,
      tr (S "Check the OpenRazer repository to confirm your device is listed as supported.")],
    passed := some (unreg.length == 0) }

/-- The unsupported-hardware step: only when the Python library imported
and the DKMS build directory exists; a missing `lsusb` binary is caught
(`FileNotFoundError`), `_get_filtered_lsusb_list` returns `None` and the
entry is omitted; a failing `DeviceManager()` raises. -/
def usbChecks (env : Env) : Except PyErr (List Check) :=
  if env.python_lib_present && env.path_exists (dkmsBuildPath env) then
    match env.lsusb_out with
    | none => .ok []
    | some out =>
      match parseLsusbOutput out with
      | .error e => .error e
      | .ok all_usb_ids =>
        match env.devices with
        | none => .error .dbusError
        | some devs =>
          .ok [unsupportedHardwareCheck env.tr env.rclient_version
                (filterUnregistered all_usb_ids (regIds devs))]
  else .ok []

/-- `int(verA[0]) > int(verB[0])` and
`float(verA[1] + "." + verA[2]) > float(verB[1] + "." + verB[2])`, with
every conversion and index able to raise. The result is true when either
comparison is: the second clause is NOT guarded by equality of the major
components. -/
def is_version_newer_then (verA verB : Str) : Except PyErr Bool :=
  let A := splitOnChar '.' verA
  let B := splitOnChar '.' verB
  match pyInt (A.headD []) with
  | none => .error .valueError
  | some a0 =>
  match pyInt (B.headD []) with
  | none => .error .valueError
  | some b0 =>
  match A.get? 1 with
  | none => .error .indexError
  | some a1 =>
  match A.get? 2 with
  | none => .error .indexError
  | some a2 =>
  match pyFloat (a1 ++ '.' :: a2) with
  | none => .error .valueError
  | some fA =>
  match B.get? 1 with
  | none => .error .indexError
  | some b1 =>
  match B.get? 2 with
  | none => .error .indexError
  | some b2 =>
  match pyFloat (b1 ++ '.' :: b2) with
  | none => .error .valueError
  | some fB => .ok (decide (b0 < a0) || decLtB fB fA)

/-- The remote-version acceptance guard: the body is accepted as the remote
version exactly when the HTTP status is 200 and the stripped body splits on
`.` into exactly three fields — nothing checks the fields are numeric. A
raised connection error leaves the remote version unknown. -/
def acceptedRemote (resp : Option (Nat × Str)) : Option Str :=
  match resp with
  | none => none
  | some (status, text) =>
    if status == 200 && (splitOnChar '.' (stripStr text)).length == 3 then
      some (stripStr text)
    else none

/-- The `OpenRazer is the latest version` entry when the remote version was
retrieved: passes unless the remote version compares newer. -/
def versionLatestCheck (tr : Str → Str) (localVer remoteVer : Str) (isNew : Bool) : Check :=
  { test_name := tr (S "OpenRazer is the latest version"),
    suggestions := [
      tr (S "There is a new version of OpenRazer available."),
      tr (S "New versions add support for more devices and address device-specific issues."),
      replaceStr (tr (S "Your version: 0.0.0")) (S "0.0.0") localVer,
      replaceStr (tr (S "Latest version: 0.0.0")) (S "0.0.0") remoteVer],
    passed := some (!isNew) }

/-- The `OpenRazer is the latest version` entry when the remote version is
unknown: indeterminate, with guidance to check manually. -/
def versionUnknownCheck (tr : Str → Str) : Check :=
  { test_name := tr (S "OpenRazer is the latest version"),
    suggestions := [
      tr (S "Unable to retrieve this data from OpenRazer\x27s website."),
      tr (S "Check the OpenRazer website to confirm your device is listed as supported."),
      tr (S "If you\x27re checking the GitHub repository, check the \x27stable\x27 branch.")],
    passed := none }

/-- The version-freshness step, present exactly when the Python library
imported; the comparison of an accepted remote version can raise. -/
def versionChecks (env : Env) : Except PyErr (List Check) :=
  if env.python_lib_present then
    match acceptedRemote env.response with
    | some remote =>
      if remote.length > 0 then
        match is_version_newer_then remote env.rclient_version with
        | .error e => .error e
        | .ok b => .ok [versionLatestCheck env.tr env.rclient_version remote b]
      else .ok [versionUnknownCheck env.tr]
    | none => .ok [versionUnknownCheck env.tr]
  else .ok []

/-- Everything inside the outer `try` after the platform guard, in the
order the code appends to `results`; the first raising step aborts the
whole body with its fault. -/
def body (env : Env) : Except PyErr (List Check) :=
  match daemonRunningCheck env with
  | .error e => .error e
  | .ok cRun =>
  match modprobeCheck env with
  | .error e => .error e
  | .ok cModprobe =>
  match lsmodCheck env with
  | .error e => .error e
  | .ok cLsmod =>
  match securebootChecks env with
  | .error e => .error e
  | .ok cSb =>
  match groupsCheck env with
  | .error e => .error e
  | .ok cGroups =>
  match usbChecks env with
  | .error e => .error e
  | .ok cUsb =>
  match versionChecks env with
  | .error e => .error e
  | .ok cVer =>
    .ok ([daemonInstalledCheck env, cRun, pythonLibCheck env]
          ++ dkmsChecks env ++ [cModprobe, cLsmod] ++ cSb ++ [cGroups]
          ++ logChecks env ++ cUsb ++ cVer)

/-- The entry point: `None` unless the platform is Linux; otherwise the
body runs and any fault it raises is caught once at this outermost level
and rendered as the fatal string, discarding every accumulated entry. -/
def troubleshoot (env : Env) : Outcome :=
  if env.sysname != S "Linux" then .notApplicable
  else
    match body env with
    | .ok results => .report results
    | .error e => .fatal (get_exception_as_string e)

/-! ## Arithmetic and string lemmas -/

/-- Bounded facts about digit characters, checked by evaluation. -/
lemma digitChar_facts : ∀ m, m < 10 → isDigitC (digitChar m) = true ∧ (digitChar m).toNat = 48 + m := by
  decide

/-- A digit character is not whitespace. -/
lemma isSpaceC_eq_false_of_isDigitC {c : Char} (h : isDigitC c = true) : isSpaceC c = false := by
  simp only [isDigitC, Bool.and_eq_true, decide_eq_true_eq] at h
  simp only [isSpaceC, Bool.or_eq_false_iff, beq_eq_false_iff_ne, ne_eq]
  omega

/-- A digit character is none of the special characters the embedding
branches on. -/
lemma digit_not_special {c : Char} (h : isDigitC c = true) :
    (c == '-') = false ∧ (c == '+') = false ∧ (c == ' ') = false ∧ (c == '\n') = false := by
  refine ⟨?_, ?_, ?_, ?_⟩ <;> {
    rw [beq_eq_false_iff_ne]
    intro hc
    subst hc
    exact absurd h (by decide) }

/-- The digit rendering of a natural below its fuel is a non-empty digit
string whose value round-trips. -/
lemma natDigitsAux_spec : ∀ fuel n, n < fuel →
    allDigits (natDigitsAux fuel n) = true ∧ natDigitsAux fuel n ≠ [] ∧
      parseDigitsVal (natDigitsAux fuel n) = n := by
  intro fuel
  induction fuel with
  | zero => intro n h; omega
  | succ f ih =>
    intro n h
    by_cases h10 : n < 10
    · have hd := digitChar_facts n h10
      refine ⟨?_, ?_, ?_⟩ <;>
        simp [natDigitsAux, h10, allDigits, parseDigitsVal, hd.1, hd.2]
    · have hrec : n / 10 < f := by
        have h1 : n / 10 < n := Nat.div_lt_self (by omega) (by omega)
        omega
      obtain ⟨ha, hne, hv⟩ := ih (n / 10) hrec
      have hd := digitChar_facts (n % 10) (Nat.mod_lt _ (by omega))
      refine ⟨?_, ?_, ?_⟩
      · simp [natDigitsAux, h10, allDigits, List.all_append] at ha ⊢
        exact ⟨ha, hd.1⟩
      · simp [natDigitsAux, h10]
      · simp only [natDigitsAux, h10, if_false, parseDigitsVal, List.foldl_append] at hv ⊢
        simp only [List.foldl_cons, List.foldl_nil, hv, hd.2]
        omega

/-- `str(n)` is a non-empty digit string with value `n`. -/
lemma natToStr_spec (n : Nat) :
    allDigits (natToStr n) = true ∧ natToStr n ≠ [] ∧ parseDigitsVal (natToStr n) = n :=
  natDigitsAux_spec (n + 1) n (Nat.lt_succ_self n)

/-- `dropWhile` keeps a list none of whose elements satisfy the test. -/
lemma dropWhile_eq_self_of_all {p : Char → Bool} :
    ∀ l : Str, (∀ c ∈ l, p c = false) → l.dropWhile p = l := by
  intro l h
  cases l with
  | nil => rfl
  | cons c r => simp [List.dropWhile, h c (by simp)]

/-- Stripping a string of digits changes nothing. -/
lemma stripStr_of_allDigits {s : Str} (h : allDigits s = true) : stripStr s = s := by
  have hns : ∀ c ∈ s, isSpaceC c = false := by
    intro c hc
    exact isSpaceC_eq_false_of_isDigitC ((List.all_eq_true.mp h) c hc)
  unfold stripStr
  rw [dropWhile_eq_self_of_all s hns,
      dropWhile_eq_self_of_all s.reverse (by intro c hc; exact hns c (List.mem_reverse.mp hc)),
      List.reverse_reverse]

/-- Stripping a digit string with a trailing newline leaves the digits. -/
lemma stripStr_digits_newline {s : Str} (h : allDigits s = true) (hne : s ≠ []) :
    stripStr (s ++ ['\n']) = s := by
  have hns : ∀ c ∈ s, isSpaceC c = false := by
    intro c hc
    exact isSpaceC_eq_false_of_isDigitC ((List.all_eq_true.mp h) c hc)
  obtain ⟨c, r, rfl⟩ : ∃ c r, s = c :: r := by
    cases s with
    | nil => exact absurd rfl hne
    | cons c r => exact ⟨c, r, rfl⟩
  have hall : ∀ x ∈ r.reverse ++ [c], isSpaceC x = false := by
    intro x hx
    rcases List.mem_append.mp hx with hx | hx
    · exact hns x (by simp [List.mem_reverse.mp hx])
    · simp at hx
      subst hx
      exact hns x (by simp)
  unfold stripStr
  rw [List.cons_append, List.dropWhile_cons_of_neg (by simp [hns c (by simp)])]
  have h1 : (c :: (r ++ ['\n'])).reverse = '\n' :: (r.reverse ++ [c]) := by simp
  rw [h1, List.dropWhile_cons_of_pos (by decide), dropWhile_eq_self_of_all _ hall]
  simp

/-- `int` on a digit string that stripping does not change parses its
value. -/
lemma pyInt_digits {s : Str} (h : allDigits s = true) (hne : s ≠ [])
    (hs : stripStr s = s) : pyInt s = some (parseDigitsVal s : Int) := by
  obtain ⟨c, r, rfl⟩ : ∃ c r, s = c :: r := by
    cases s with
    | nil => exact absurd rfl hne
    | cons c r => exact ⟨c, r, rfl⟩
  have hdc : isDigitC c = true := List.all_eq_true.mp h c (by simp)
  have hm : ¬(c = '-') := by
    have := (digit_not_special hdc).1
    simpa using this
  have hp : ¬(c = '+') := by
    have := (digit_not_special hdc).2.1
    simpa using this
  unfold pyInt
  rw [hs]
  simp [hm, hp, h]

/-- Converting `str(n)` back with `int` recovers `n`. -/
lemma pyInt_natToStr (n : Nat) : pyInt (natToStr n) = some (n : Int) := by
  obtain ⟨ha, hne, hv⟩ := natToStr_spec n
  rw [pyInt_digits ha hne (stripStr_of_allDigits ha), hv]

/-! ## Last-token extraction from the byte-dump output -/

/-- `splitOnChar` never yields the empty list. -/
lemma splitOnChar_ne_nil (c : Char) : ∀ s : Str, splitOnChar c s ≠ [] := by
  intro s
  cases s with
  | nil => simp [splitOnChar]
  | cons x xs =>
    by_cases hx : (x == c) = true
    · simp [splitOnChar, hx]
    · simp only [splitOnChar, hx, Bool.false_eq_true, if_false]
      cases splitOnChar c xs <;> simp

/-- Splitting a string that contains the separator yields at least two
pieces. -/
lemma splitOnChar_length_ge_two (c : Char) :
    ∀ s : Str, c ∈ s → 2 ≤ (splitOnChar c s).length := by
  intro s
  induction s with
  | nil => intro h; cases h
  | cons x xs ih =>
    intro h
    by_cases hx : (x == c) = true
    · simp only [splitOnChar, hx, if_true, List.length_cons]
      have := splitOnChar_ne_nil c xs
      have : 1 ≤ (splitOnChar c xs).length := by
        cases hk : splitOnChar c xs with
        | nil => exact absurd hk this
        | cons a l => simp
      omega
    · have hmem : c ∈ xs := by
        cases h with
        | head => exact absurd (by simp) hx
        | tail _ h => exact h
      have h2 := ih hmem
      simp only [splitOnChar, hx, Bool.false_eq_true, if_false]
      cases hk : splitOnChar c xs with
      | nil => exact absurd hk (splitOnChar_ne_nil c xs)
      | cons y ys =>
        rw [hk] at h2
        simpa using h2

/-- The default of `getLastD` is irrelevant on a non-empty list. -/
lemma getLastD_default_irrel {α : Type} : ∀ (l : List α) (d d' : α), l ≠ [] →
    l.getLastD d = l.getLastD d' := by
  intro l
  induction l with
  | nil => intro d d' h; exact absurd rfl h
  | cons a t ih =>
    intro d d' _
    cases t with
    | nil => rfl
    | cons b t' => simpa [List.getLastD_cons] using ih d d' (by simp)

/-- Splitting a separator-free string yields that one piece. -/
lemma splitOnChar_no_sep (c : Char) :
    ∀ v : Str, (∀ x ∈ v, (x == c) = false) → splitOnChar c v = [v] := by
  intro v
  induction v with
  | nil => intro _; rfl
  | cons x xs ih =>
    intro h
    have hx := h x (by simp)
    simp only [splitOnChar, hx, Bool.false_eq_true, if_false]
    rw [ih (fun y hy => h y (by simp [hy]))]

/-- The last space-separated token after the final separator, when what
follows the separator is separator-free. -/
lemma splitOnChar_getLastD_append (c : Char) :
    ∀ (u v : Str), (∀ x ∈ v, (x == c) = false) →
      (splitOnChar c (u ++ c :: v)).getLastD [] = v := by
  intro u
  induction u with
  | nil =>
    intro v hv
    simp only [List.nil_append, splitOnChar, beq_self_eq_true, if_true]
    rw [splitOnChar_no_sep c v hv]
    rfl
  | cons x u' ih =>
    intro v hv
    by_cases hx : (x == c) = true
    · simp only [List.cons_append, splitOnChar, hx, if_true, List.getLastD_cons]
      rw [getLastD_default_irrel _ _ [] (splitOnChar_ne_nil c _)]
      exact ih v hv
    · have hmem : c ∈ u' ++ c :: v := by simp
      have h2 := splitOnChar_length_ge_two c (u' ++ c :: v) hmem
      simp only [List.cons_append, splitOnChar, hx, Bool.false_eq_true, if_false]
      cases hk : splitOnChar c (u' ++ c :: v) with
      | nil => exact absurd hk (splitOnChar_ne_nil c _)
      | cons y ys =>
        rw [hk] at h2
        have hys : ys ≠ [] := by
          intro hcon
          rw [hcon] at h2
          simp at h2
        simp only [List.getLastD_cons]
        calc ys.getLastD (x :: y) = ys.getLastD y := getLastD_default_irrel ys _ y hys
          _ = (y :: ys).getLastD [] := by rw [List.getLastD_cons]
          _ = v := by rw [← hk]; exact ih v hv

/-- Appending one more token to a non-empty space-joined list. -/
lemma joinSp_append_single : ∀ (ts : List Str) (v : Str), ts ≠ [] →
    joinSp (ts ++ [v]) = joinSp ts ++ ' ' :: v := by
  intro ts
  induction ts with
  | nil => intro v h; exact absurd rfl h
  | cons t ts' ih =>
    intro v _
    cases ts' with
    | nil => rfl
    | cons t2 ts'' =>
      show t ++ ' ' :: joinSp ((t2 :: ts'') ++ [v]) = (t ++ ' ' :: joinSp (t2 :: ts'')) ++ ' ' :: v
      rw [ih v (by simp)]
      simp

/-- Digit strings carry no separator characters. -/
lemma no_sep_of_allDigits {s : Str} (h : allDigits s = true) :
    ∀ x ∈ s ++ ['\n'], (x == ' ') = false := by
  intro x hx
  rcases List.mem_append.mp hx with hx | hx
  · exact (digit_not_special ((List.all_eq_true.mp h) x hx)).2.2.1
  · simp at hx
    subst hx
    decide

/-- The `int(...)` conversion of the last `od` token recovers the final
byte of the dumped file. -/
lemma od_last_token (bs : List Nat) (b : Nat) :
    pyInt (stripStr ((splitOnChar ' ' (odRender (bs ++ [b]))).getLastD [])) = some (b : Int) := by
  obtain ⟨hab, hbne, _⟩ := natToStr_spec b
  have hlast : (splitOnChar ' ' (odRender (bs ++ [b]))).getLastD [] = natToStr b ++ ['\n'] := by
    unfold odRender
    cases bs with
    | nil =>
      simp only [List.nil_append, List.map_cons, List.map_nil]
      have hj : joinSp [natToStr b] = natToStr b := rfl
      rw [hj, splitOnChar_no_sep ' ' (natToStr b ++ ['\n']) (no_sep_of_allDigits hab)]
      rfl
    | cons t ts =>
      rw [List.map_append]
      simp only [List.map_cons, List.map_nil]
      rw [joinSp_append_single (natToStr t :: List.map natToStr ts) (natToStr b) (by simp)]
      have hassoc : (joinSp (natToStr t :: List.map natToStr ts) ++ ' ' :: natToStr b) ++ ['\n']
          = joinSp (natToStr t :: List.map natToStr ts) ++ ' ' :: (natToStr b ++ ['\n']) := by
        simp
      rw [hassoc]
      exact splitOnChar_getLastD_append ' ' _ _ (no_sep_of_allDigits hab)
  rw [hlast, stripStr_digits_newline hab hbne, pyInt_natToStr]

/-! ## Concrete environments -/

/-- A benign Linux environment: library present, every optional file
absent, subprocesses available and quiet, the HTTP fetch raising. -/
def EnvBase : Env :=
  { tr := id
    sysname := S "Linux"
    uname_release := S "6.1.0"
    uname_machine := S "x86_64"
    xdg_runtime_dir := some (S "/run/user/1000")
    uid := 1000
    which_openrazer_daemon := true
    path_exists := fun _ => false
    read_lines := fun _ => []
    read_bytes := fun _ => []
    python_lib_present := true
    rclient_version := S "3.0.0"
    modprobe := some 0
    lsmod := some (S "")
    efi_glob := []
    od_available := true
    groups_out := some (S "")
    home := S "/home/u"
    lsusb_out := some (S "")
    devices := some []
    response := none }

/-- The report the benign environment produces. -/
def baseReport : List Check :=
  match body EnvBase with
  | .ok rs => rs
  | .error _ => []

/-- A non-Linux platform. -/
def EnvOtherOS : Env := { EnvBase with sysname := S "Darwin" }

/-- A pid file whose first line is not an integer. -/
def EnvPidBad : Env :=
  { EnvBase with
    path_exists := fun p => p == S "/run/user/1000/openrazer-daemon.pid"
    read_lines := fun _ => [S "abc"] }

/-- The `modprobe` binary is missing. -/
def EnvNoModprobe : Env := { EnvBase with modprobe := none }

/-- A 200 response whose three dot-separated fields are not numeric. -/
def EnvRemoteBad : Env := { EnvBase with response := some (200, S "a.b.c") }

/-- EFI firmware present but no `SecureBoot*` variable file globbed. -/
def EnvEfiNoVar : Env :=
  { EnvBase with path_exists := fun p => p == S "/sys/firmware/efi" }

/-- EFI firmware with a status variable whose final byte is 1. -/
def EnvEfiOn : Env :=
  { EnvBase with
    path_exists := fun p => p == S "/sys/firmware/efi"
    efi_glob := [S "/sys/firmware/efi/efivars/SecureBoot-8be4df61"]
    read_bytes := fun _ => [6, 0, 0, 0, 1] }

/-- EFI firmware with a status variable whose final byte is 0. -/
def EnvEfiOff : Env := { EnvEfiOn with read_bytes := fun _ => [6, 0, 0, 0, 0] }

/-! ## Helper lemmas for the claim theorems -/

/-- The last element of a list ending in a singleton. -/
lemma getLast?_append_singleton {α : Type} (l : List α) (a : α) :
    (l ++ [a]).getLast? = some a := by
  rw [List.getLast?_append_of_ne_nil l (by simp)]
  rfl

/-- `contains` agrees with membership for device-id pairs. -/
lemma contains_iff_mem_ids (reg : List (Str × Str)) (u : Str × Str) :
    reg.contains u = true ↔ u ∈ reg := List.elem_iff

/-- One step of the reconciliation loop. -/
lemma filterUnregistered_cons (usb : Str × Str) (rest reg : List (Str × Str)) :
    filterUnregistered (usb :: rest) reg =
      if (usb.1 != S "1532") = true then filterUnregistered rest reg
      else if reg.contains usb = true then filterUnregistered rest reg
      else usb :: filterUnregistered rest reg := rfl

/-! ## The claims -/

/-- C1: the version comparison evaluated at the spec's three examples. The
first two agree with the claim; the third does not: the code returns true
on `("2.9.9", "3.0.0")` because the `minor.patch` comparison `9.9 > 0.0`
sets the flag without any guard that the major components are equal,
whereas the claimed predicate (and the function's own name) requires false
there. -/
theorem C1_version_compare_eval :
    is_version_newer_then (S "3.1.0") (S "3.0.9") = .ok true ∧
    is_version_newer_then (S "3.0.1") (S "3.0.0") = .ok true ∧
    is_version_newer_then (S "2.9.9") (S "3.0.0") = .ok true :=
  ⟨rfl, rfl, rfl⟩

/-- C2: for every environment the pipeline returns exactly one of the
not-applicable marker, a report, or a fatal string; and whenever the body
raises on a supported platform, the outcome is the fatal string alone —
the accumulated entries are discarded with it. -/
theorem C2_outcome_trichotomy :
    ∀ env : Env,
      (troubleshoot env = .notApplicable ∨ (∃ rs, troubleshoot env = .report rs) ∨
        (∃ msg, troubleshoot env = .fatal msg)) ∧
      (∀ e : PyErr, env.sysname = S "Linux" → body env = .error e →
        troubleshoot env = .fatal (get_exception_as_string e)) := by
  intro env
  constructor
  · cases hb : env.sysname != S "Linux" with
    | true =>
      left
      unfold troubleshoot
      simp [hb]
    | false =>
      cases hbody : body env with
      | ok rs =>
        right
        left
        refine ⟨rs, ?_⟩
        unfold troubleshoot
        simp [hb, hbody]
      | error e =>
        right
        right
        refine ⟨get_exception_as_string e, ?_⟩
        unfold troubleshoot
        simp [hb, hbody]
  · intro e hsys hbody
    unfold troubleshoot
    rw [hsys]
    simp [hbody]

/-- C3: on a platform other than Linux the pipeline returns the
not-applicable marker, whatever the rest of the environment holds. -/
theorem C3_platform_guard (env : Env) (h : env.sysname ≠ S "Linux") :
    troubleshoot env = .notApplicable := by
  unfold troubleshoot
  simp [bne_iff_ne.mpr h]

/-- C3 witness: a concrete macOS environment short-circuits. -/
theorem C3_platform_guard_witness : troubleshoot EnvOtherOS = .notApplicable :=
  C3_platform_guard EnvOtherOS (by decide)

/-- C4: a scanned device is kept as unsupported exactly when its vendor id
is `1532` and its pair is not registered; the unsupported-hardware entry
passes exactly when that list is empty; and both of the claim's concrete
examples evaluate as claimed. -/
theorem C4_unsupported_reconciliation :
    (∀ (all reg : List (Str × Str)) (u : Str × Str),
        u ∈ filterUnregistered all reg ↔ u ∈ all ∧ u.1 = S "1532" ∧ u ∉ reg) ∧
    (∀ (tr : Str → Str) (dv : Str) (unreg : List (Str × Str)),
        (unsupportedHardwareCheck tr dv unreg).passed = some true ↔ unreg = []) ∧
    filterUnregistered [(S "1532", S "0203"), (S "046D", S "C52B")]
        [(S "1532", S "0203")] = [] ∧
    (unsupportedHardwareCheck id (S "3.0.0")
        (filterUnregistered [(S "1532", S "0203"), (S "046D", S "C52B")]
          [(S "1532", S "0203")])).passed = some true ∧
    filterUnregistered [(S "1532", S "0203"), (S "046D", S "C52B")] []
        = [(S "1532", S "0203")] ∧
    (unsupportedHardwareCheck id (S "3.0.0")
        (filterUnregistered [(S "1532", S "0203"), (S "046D", S "C52B")] [])).passed
        = some false := by
  refine ⟨?_, ?_, by decide, by decide, by decide, by decide⟩
  · intro all reg u
    induction all with
    | nil => simp [filterUnregistered]
    | cons usb rest ih =>
      by_cases h1 : usb.1 = S "1532"
      · have hbne : ¬((usb.1 != S "1532") = true) := by simp [h1]
        by_cases h2 : usb ∈ reg
        · have hc : reg.contains usb = true := (contains_iff_mem_ids reg usb).mpr h2
          rw [filterUnregistered_cons, if_neg hbne, if_pos hc, ih]
          constructor
          · rintro ⟨hm, hv, hr⟩
            exact ⟨List.mem_cons_of_mem usb hm, hv, hr⟩
          · rintro ⟨hm, hv, hr⟩
            rcases List.mem_cons.mp hm with rfl | hm
            · exact absurd h2 hr
            · exact ⟨hm, hv, hr⟩
        · have hc : ¬(reg.contains usb = true) := by
            intro hcc
            exact absurd ((contains_iff_mem_ids reg usb).mp hcc) h2
          rw [filterUnregistered_cons, if_neg hbne, if_neg hc]
          constructor
          · intro hm
            rcases List.mem_cons.mp hm with rfl | hm
            · exact ⟨List.mem_cons_self _ _, h1, h2⟩
            · obtain ⟨ha, hv, hr⟩ := ih.mp hm
              exact ⟨List.mem_cons_of_mem usb ha, hv, hr⟩
          · rintro ⟨hm, hv, hr⟩
            rcases List.mem_cons.mp hm with rfl | hm
            · exact List.mem_cons_self _ _
            · exact List.mem_cons_of_mem usb (ih.mpr ⟨hm, hv, hr⟩)
      · have hbne : (usb.1 != S "1532") = true := by
          simp only [bne_iff_ne, ne_eq]
          exact h1
        rw [filterUnregistered_cons, if_pos hbne, ih]
        constructor
        · rintro ⟨hm, hv, hr⟩
          exact ⟨List.mem_cons_of_mem usb hm, hv, hr⟩
        · rintro ⟨hm, hv, hr⟩
          rcases List.mem_cons.mp hm with rfl | hm
          · exact absurd hv h1
          · exact ⟨hm, hv, hr⟩
  · intro tr dv unreg
    simp [unsupportedHardwareCheck, List.length_eq_zero]

/-- C5: the parser extracts the sixth whitespace token of a well-shaped
line and uppercases the `:`-split pair; but a non-empty malformed line is
NOT silently discarded: it raises `IndexError` (the `except
AttributeError` around it cannot catch an `IndexError`), aborting the
whole scan even when other lines are well-shaped. -/
theorem C5_malformed_line_raises :
    parseLsusbOutput (S "Bus 001 Device 002: ID 1532:0203 Razer BlackWidow\n")
        = .ok [(S "1532", S "0203")] ∧
    parseLsusbOutput (S "foo") = .error .indexError ∧
    parseLsusbOutput (S "Bus 001 Device 002: ID 1532:0203 Razer BlackWidow\nfoo")
        = .error .indexError :=
  ⟨rfl, rfl, rfl⟩

/-- C6 counterexample: a daemon pid file whose first line is `abc` turns
the whole run into the fatal outcome, contradicting the claim that
malformed pid data never escalates beyond the single check. -/
theorem C6_pid_file_counterexample :
    troubleshoot EnvPidBad = .fatal (get_exception_as_string PyErr.valueError) := by
  decide

/-- C6 amended: an absent USB enumeration tool only omits the
unsupported-hardware entry (never an error); but a pid file whose first
line fails integer conversion raises `ValueError`, which escalates the
entire run to the fatal outcome. -/
theorem C6_check_isolation_amended :
    ∀ env : Env,
      (env.lsusb_out = none → usbChecks env = .ok []) ∧
      (env.sysname = S "Linux" → env.path_exists (daemonPidFile env) = true →
        pyInt (firstLine (env.read_lines (daemonPidFile env))) = none →
        troubleshoot env = .fatal (get_exception_as_string .valueError)) := by
  intro env
  constructor
  · intro h
    unfold usbChecks
    split
    · rw [h]
    · rfl
  · intro hsys hpid hparse
    have hflag : daemonRunningFlag env = .error .valueError := by
      unfold daemonRunningFlag
      simp [hpid, hparse]
    have hrun : daemonRunningCheck env = .error .valueError := by
      unfold daemonRunningCheck
      rw [hflag]
    have hbody : body env = .error .valueError := by
      unfold body
      rw [hrun]
    unfold troubleshoot
    rw [hsys]
    simp [hbody]

/-- C7: with the library present and the HTTP fetch raising, the
version-freshness step raises nothing and yields exactly the indeterminate
manual-check entry, and that entry closes any report the run returns. -/
theorem C7_network_failure_indeterminate (env : Env) (rs : List Check)
    (hlib : env.python_lib_present = true) (hresp : env.response = none)
    (hrun : troubleshoot env = .report rs) :
    versionChecks env = .ok [versionUnknownCheck env.tr] ∧
    (versionUnknownCheck env.tr).passed = none ∧
    rs.getLast? = some (versionUnknownCheck env.tr) := by
  have hv : versionChecks env = .ok [versionUnknownCheck env.tr] := by
    unfold versionChecks
    rw [hlib, hresp]
    simp [acceptedRemote]
  refine ⟨hv, rfl, ?_⟩
  have hbody : body env = .ok rs := by
    unfold troubleshoot at hrun
    cases hb : env.sysname != S "Linux" with
    | true =>
      rw [hb] at hrun
      simp only [if_true] at hrun
      cases hrun
    | false =>
      rw [hb] at hrun
      simp only [Bool.false_eq_true, if_false] at hrun
      cases hbe : body env with
      | ok rs' =>
        rw [hbe] at hrun
        simp only [Outcome.report.injEq] at hrun
        rw [hrun]
      | error e =>
        rw [hbe] at hrun
        cases hrun
  unfold body at hbody
  cases h1 : daemonRunningCheck env with
  | error e => rw [h1] at hbody; cases hbody
  | ok c1 =>
  rw [h1] at hbody
  cases h2 : modprobeCheck env with
  | error e => rw [h2] at hbody; cases hbody
  | ok c2 =>
  rw [h2] at hbody
  cases h3 : lsmodCheck env with
  | error e => rw [h3] at hbody; cases hbody
  | ok c3 =>
  rw [h3] at hbody
  cases h4 : securebootChecks env with
  | error e => rw [h4] at hbody; cases hbody
  | ok c4 =>
  rw [h4] at hbody
  cases h5 : groupsCheck env with
  | error e => rw [h5] at hbody; cases hbody
  | ok c5 =>
  rw [h5] at hbody
  cases h6 : usbChecks env with
  | error e => rw [h6] at hbody; cases hbody
  | ok c6 =>
  rw [h6] at hbody
  rw [hv] at hbody
  simp only [Except.ok.injEq] at hbody
  rw [← hbody]
  exact getLast?_append_singleton _ _

/-- C7 witness: the benign environment with a raising fetch. -/
theorem C7_network_failure_witness :
    versionChecks EnvBase = .ok [versionUnknownCheck EnvBase.tr] ∧
    (versionUnknownCheck EnvBase.tr).passed = none ∧
    baseReport.getLast? = some (versionUnknownCheck EnvBase.tr) :=
  C7_network_failure_indeterminate EnvBase baseReport rfl rfl (by decide)

/-- C8: the four-way secure-boot split. No EFI directory: no entry. EFI
directory but no globbed status variable: the indeterminate entry. A
status variable whose dumped final byte is zero: a passing entry; nonzero:
a failing entry. The last two conjuncts evaluate concrete environments on
both determinate branches. -/
theorem C8_secureboot_cases :
    (∀ env : Env,
      (env.path_exists (S "/sys/firmware/efi") = false →
        securebootChecks env = .ok []) ∧
      (env.path_exists (S "/sys/firmware/efi") = true → env.efi_glob = [] →
        securebootChecks env = .ok [sbIndetCheck env.tr] ∧
          (sbIndetCheck env.tr).passed = none) ∧
      (∀ p rest bs, env.path_exists (S "/sys/firmware/efi") = true →
        env.efi_glob = p :: rest → env.od_available = true →
        env.read_bytes p = bs ++ [0] →
        securebootChecks env = .ok [sbStatusCheck env.tr true]) ∧
      (∀ p rest bs b, env.path_exists (S "/sys/firmware/efi") = true →
        env.efi_glob = p :: rest → env.od_available = true →
        env.read_bytes p = bs ++ [b] → b ≠ 0 →
        securebootChecks env = .ok [sbStatusCheck env.tr false])) ∧
    securebootChecks EnvEfiNoVar = .ok [sbIndetCheck id] ∧
    securebootChecks EnvEfiOn = .ok [sbStatusCheck id false] ∧
    securebootChecks EnvEfiOff = .ok [sbStatusCheck id true] := by
  refine ⟨?_, rfl, rfl, rfl⟩
  intro env
  refine ⟨?_, ?_, ?_, ?_⟩
  · intro h
    unfold securebootChecks
    simp [h]
  · intro h hg
    refine ⟨?_, rfl⟩
    unfold securebootChecks
    simp [h, hg]
  · intro p rest bs hex hg hod hb
    unfold securebootChecks
    rw [hg]
    simp only [hex, if_true, hod]
    rw [hb, od_last_token]
    rfl
  · intro p rest bs b hex hg hod hb hnz
    have hbeq : (((b : Nat) : Int) == (0 : Int)) = false :=
      beq_eq_false_iff_ne.mpr (fun hc => hnz (Int.natCast_eq_zero.mp hc))
    unfold securebootChecks
    rw [hg]
    simp only [hex, if_true, hod]
    rw [hb, od_last_token]
    show Except.ok [sbStatusCheck env.tr (((b : Nat) : Int) == 0)]
        = Except.ok [sbStatusCheck env.tr false]
    rw [hbeq]

/-- C9: the pipeline is a function of its environment: two environments
agreeing on every input produce structurally identical outcomes. -/
theorem C9_deterministic (e1 e2 : Env)
    (h1 : e1.tr = e2.tr) (h2 : e1.sysname = e2.sysname)
    (h3 : e1.uname_release = e2.uname_release)
    (h4 : e1.uname_machine = e2.uname_machine)
    (h5 : e1.xdg_runtime_dir = e2.xdg_runtime_dir) (h6 : e1.uid = e2.uid)
    (h7 : e1.which_openrazer_daemon = e2.which_openrazer_daemon)
    (h8 : e1.path_exists = e2.path_exists) (h9 : e1.read_lines = e2.read_lines)
    (h10 : e1.read_bytes = e2.read_bytes)
    (h11 : e1.python_lib_present = e2.python_lib_present)
    (h12 : e1.rclient_version = e2.rclient_version)
    (h13 : e1.modprobe = e2.modprobe) (h14 : e1.lsmod = e2.lsmod)
    (h15 : e1.efi_glob = e2.efi_glob) (h16 : e1.od_available = e2.od_available)
    (h17 : e1.groups_out = e2.groups_out) (h18 : e1.home = e2.home)
    (h19 : e1.lsusb_out = e2.lsusb_out) (h20 : e1.devices = e2.devices)
    (h21 : e1.response = e2.response) :
    troubleshoot e1 = troubleshoot e2 := by
  have he : e1 = e2 := by
    cases e1
    cases e2
    simp_all
  rw [he]

/-- C9 witness: the benign environment compared with itself. -/
theorem C9_deterministic_witness : troubleshoot EnvBase = troubleshoot EnvBase :=
  C9_deterministic EnvBase EnvBase rfl rfl rfl rfl rfl rfl rfl rfl rfl rfl rfl
    rfl rfl rfl rfl rfl rfl rfl rfl rfl rfl

/-- C10: the acceptance guard admits a 200 body of three non-numeric
dot-separated fields; the comparison then raises `ValueError`; and in a
full run that fault escapes the version check to the outer boundary,
turning the whole outcome fatal and discarding every accumulated entry. -/
theorem C10_nonnumeric_remote_fatal :
    acceptedRemote (some (200, S "a.b.c")) = some (S "a.b.c") ∧
    is_version_newer_then (S "a.b.c") (S "3.0.0") = .error .valueError ∧
    troubleshoot EnvRemoteBad = .fatal (get_exception_as_string .valueError) :=
  ⟨rfl, rfl, by decide⟩

end OpenrazerTS
